import Mathlib

/-
  Verification development for the helm-lock plugin.

  The Go sources are shallowly embedded:
  - cmd/helm.go   : getReleaseStatus, performRollback (via the rollback oracle)
  - cmd/lock.go   : runLockCommand, acquireLockAndExecute, executeHelmCommand
  - cmd/main.go   : the RunE argument-selection logic

  External timing and backend nondeterminism (whether leader election wins
  before the lock-timeout deadline, whether the rollback / helm command
  finish before the deadline, what the helm get / rollback / exec calls
  return) is captured in an environment record `Env`; the run functions are
  deterministic functions of that environment, and emit an event trace so
  that call counts and ordering can be stated.
-/

namespace HelmLock

/-- Helm release statuses, as in helm.sh/helm/v3/pkg/release.Status.
There is no "absent" value in this enumeration: the Go code has none. -/
inductive Status
  | unknown
  | deployed
  | uninstalled
  | superseded
  | failed
  | uninstalling
  | pendingInstall
  | pendingUpgrade
  | pendingRollback
deriving DecidableEq, Repr

/-- Result of the helm get action (action.NewGet(...).Run(releaseName)):
either a release with its Info.Status, or an error message. -/
inductive GetReleaseResult
  | found (s : Status)
  | err (msg : String)
deriving DecidableEq, Repr

/-- Membership of `sub` as a contiguous sublist, mirroring Go strings.Contains
on the character lists. -/
def listContainsSub (sub : List Char) : List Char → Bool
  | [] => sub.isEmpty
  | c :: rest => sub.isPrefixOf (c :: rest) || listContainsSub sub rest

/-- Go strings.Contains(s, sub). -/
def strContains (s sub : String) : Bool :=
  listContainsSub sub.toList s.toList

/-- Embedding of cmd/helm.go getReleaseStatus: on a get error whose message contains
"not found" it returns (StatusUnknown, nil); on any other error it returns
(StatusUnknown, err); otherwise the recorded status of the release. -/
def getReleaseStatus (q : GetReleaseResult) : Status × Option String :=
  match q with
  | .found s => (s, none)
  | .err m =>
      if strContains m "not found" then (Status.unknown, none)
      else (Status.unknown, some m)

/-- Embedding of cmd/lock.go: lockName := lockPrefix + opts.releaseName where
lockPrefix = "helm-lock-". -/
def lockName (releaseName : String) : String :=
  "helm-lock-" ++ releaseName

/-- The rollback gate in OnStartedLeading:
releaseStatus != release.StatusDeployed && releaseStatus != release.StatusUnknown. -/
def shouldRollback (s : Status) : Bool :=
  !(s == Status.deployed) && !(s == Status.unknown)

/-- Observable events of one invocation: the pre-lock status probe, the
leader-election grant (OnStartedLeading entered), the helm rollback, the
spawn of the guarded helm command, and the backend release call
(ReleaseOnCancel firing on the cancelled lock context). -/
inductive Ev
  | probe
  | acquire
  | rollback
  | exec
  | release
deriving DecidableEq, Repr

/-- Terminal outcomes of one invocation, as surfaced by runLockCommand. -/
inductive Outcome
  | succeeded
  | setupFailed (msg : String)
  | recoveryFailed (msg : String)
  | operationFailed (msg : String)
  | lockTimedOut
deriving DecidableEq, Repr

/-- Result of one invocation: terminal outcome, event trace, the status
value the rollback gate consumed (if it was reached), and whether the
spawned helm command was killed by context cancellation. -/
structure RunResult where
  outcome : Outcome
  trace : List Ev
  statusConsumed : Option Status
  execKilled : Bool
deriving DecidableEq, Repr

/-- Environment of one invocation: the inputs and the resolution of every
external race and fallible call. `statusQueryAtDecision` records what the
status backend would answer at the moment the lock is won; the code never
consults it (it reuses the pre-lock probe), which is exactly what the
trace field `statusConsumed` lets us observe. -/
structure Env where
  releaseName : String
  k8sOk : Bool
  statusQuery : GetReleaseResult
  statusQueryAtDecision : GetReleaseResult
  acquiredInTime : Bool
  rollbackBeatsDeadline : Bool
  rollbackErr : Option String
  execBeatsDeadline : Bool
  execErr : Option String
deriving Repr

/-- Embedding of cmd/lock.go executeHelmCommand as observed from acquireLockAndExecute:
the helm command is spawned with exec.CommandContext under the lock
context, so if the overall deadline fires before it finishes, the process
is killed and the select in acquireLockAndExecute takes the
lockCtx.Done() branch (LockTimedOut); otherwise the error from cmd.Run (or nil)
is sent on operationCompleted and becomes the outcome. ReleaseOnCancel
releases the held lease when the lock context is cancelled, which happens
on every one of these paths. -/
def execPhase (env : Env) (pre : List Ev) (consumed : Option Status) : RunResult :=
  if env.execBeatsDeadline then
    match env.execErr with
    | some m =>
        { outcome := Outcome.operationFailed m
          trace := pre ++ [Ev.exec, Ev.release]
          statusConsumed := consumed
          execKilled := false }
    | none =>
        { outcome := Outcome.succeeded
          trace := pre ++ [Ev.exec, Ev.release]
          statusConsumed := consumed
          execKilled := false }
  else
    { outcome := Outcome.lockTimedOut
      trace := pre ++ [Ev.exec, Ev.release]
      statusConsumed := consumed
      execKilled := true }

/-- Embedding of cmd/lock.go acquireLockAndExecute: runs leader election under a
context bounded by the lock-timeout and races the operationCompleted
channel against lockCtx.Done(). If acquisition does not complete before
the deadline, OnStartedLeading never runs and the deadline branch returns
the timeout error; there is no second attempt. Once leading, the cached
releaseStatus gates performRollback; a rollback error is wrapped as
"rollback failed: ..." and execution is skipped; if the deadline fires
while the rollback is still running, the deadline branch wins the select.
Otherwise executeHelmCommand runs. On every path reached after the grant
the cancelled lock context makes leader election release the lease once. -/
def acquireLockAndExecute (env : Env) (releaseStatus : Status) : RunResult :=
  if env.acquiredInTime then
    if shouldRollback releaseStatus then
      if env.rollbackBeatsDeadline then
        match env.rollbackErr with
        | some m =>
            { outcome := Outcome.recoveryFailed ("rollback failed: " ++ m)
              trace := [Ev.acquire, Ev.rollback, Ev.release]
              statusConsumed := some releaseStatus
              execKilled := false }
        | none => execPhase env [Ev.acquire, Ev.rollback] (some releaseStatus)
      else
        { outcome := Outcome.lockTimedOut
          trace := [Ev.acquire, Ev.rollback, Ev.release]
          statusConsumed := some releaseStatus
          execKilled := false }
    else execPhase env [Ev.acquire] (some releaseStatus)
  else
    { outcome := Outcome.lockTimedOut
      trace := []
      statusConsumed := none
      execKilled := false }

/-- Embedding of cmd/lock.go runLockCommand: validates the release name, builds the
kubernetes clients and helm action configuration, probes the release
status once (pre-lock), and hands the probed status to
acquireLockAndExecute together with lockName = "helm-lock-" + name. -/
def runLockCommand (env : Env) : RunResult :=
  if env.releaseName = "" then
    { outcome := Outcome.setupFailed "release name is required"
      trace := []
      statusConsumed := none
      execKilled := false }
  else if env.k8sOk = false then
    { outcome := Outcome.setupFailed "failed to get kubernetes config"
      trace := []
      statusConsumed := none
      execKilled := false }
  else
    match getReleaseStatus env.statusQuery with
    | (_, some m) =>
        { outcome := Outcome.setupFailed ("failed to check release status: " ++ m)
          trace := [Ev.probe]
          statusConsumed := none
          execKilled := false }
    | (st, none) =>
        let r := acquireLockAndExecute env st
        { outcome := r.outcome
          trace := Ev.probe :: r.trace
          statusConsumed := r.statusConsumed
          execKilled := r.execKilled }

/-- Control-flow predicate: the invocation reaches the leader-election
grant (setup succeeded, the probe returned no error, and acquisition
completed before the lock-timeout deadline). -/
def lockAcquiredPath (env : Env) : Bool :=
  !(env.releaseName == "") && env.k8sOk
    && (getReleaseStatus env.statusQuery).2.isNone && env.acquiredInTime

/-- Embedding of cmd/main.go RunE: helmCommand := args[0], helmArgs := args[1:]; on the
debug form where args[0] is "lock" the pair shifts one position right. -/
def splitCommand (args : List String) : String × List String :=
  let helmCommand := args.getD 0 ""
  let helmArgs := args.drop 1
  if helmCommand = "lock" then (args.getD 1 "", args.drop 2)
  else (helmCommand, helmArgs)

/-- Embedding of cmd/main.go RunE: with n := len(helmArgs), when n > 0 the release name
is helmArgs[n-1] after decrementing n once whenever n > 2. -/
def selectReleaseName (helmArgs : List String) : String :=
  let n := helmArgs.length
  if n > 0 then
    let n := if n > 2 then n - 1 else n
    helmArgs.getD (n - 1) ""
  else ""

/-- Parsed options of one CLI invocation (cmd/main.go RunE body). -/
structure ParsedOpts where
  helmCommand : String
  helmArgs : List String
  releaseName : String
deriving DecidableEq, Repr

/-- Embedding of cmd/main.go RunE composed: split off the command word, then select the
release name from the remaining positional arguments. -/
def parseArgs (args : List String) : ParsedOpts :=
  let p := splitCommand args
  { helmCommand := p.1, helmArgs := p.2, releaseName := selectReleaseName p.2 }

/-- Scanning a trace, a rollback event is admissible only after an acquire
event has occurred. -/
def rollbackOnlyAfterAcquire : List Ev → Bool
  | [] => true
  | Ev.acquire :: _ => true
  | Ev.rollback :: _ => false
  | _ :: l => rollbackOnlyAfterAcquire l

/-- No rollback event occurs at or after the first exec event. -/
def noRollbackFromExec : List Ev → Bool
  | [] => true
  | Ev.exec :: rest => rest.count Ev.rollback == 0
  | _ :: rest => noRollbackFromExec rest

/-- Phases of one contender in the cross-process leader-election model:
waiting for the lease, executing inside OnStartedLeading, or finished. -/
inductive Phase
  | waiting
  | executing
  | done
deriving DecidableEq, Repr

/-- Global state of the contention: the phase of each contender, and the
lease record of the backend (the Kubernetes Lease object names at most one
holder at any instant, which this single Option field encodes). -/
structure LEState where
  phase : Nat → Phase
  holder : Option Nat

/-- Pointwise update of a phase assignment. -/
def setPhase (f : Nat → Phase) (i : Nat) (p : Phase) : Nat → Phase :=
  fun j => if j = i then p else f j

/-- Transitions of the contention system, as delegated to the
client-go leader-election backend: the backend grants the lease to a
waiting contender only when nobody holds it, and OnStartedLeading (the
guarded section of acquireLockAndExecute) starts exactly at the grant; a
finishing contender leaves the guarded section and the cancelled lock
context releases the lease (ReleaseOnCancel). -/
inductive LEStep : LEState → LEState → Prop
  | grant : ∀ (s : LEState) (i : Nat), s.holder = none → s.phase i = Phase.waiting →
      LEStep s ⟨setPhase s.phase i Phase.executing, some i⟩
  | finish : ∀ (s : LEState) (i : Nat), s.holder = some i → s.phase i = Phase.executing →
      LEStep s ⟨setPhase s.phase i Phase.done, none⟩

/-- States reachable from an initial state where every contender (any
number of them, in particular any N >= 2) is waiting and the lease is
unheld. -/
inductive LEReachable : LEState → Prop
  | init : ∀ (f : Nat → Phase), (∀ i, f i = Phase.waiting) → LEReachable ⟨f, none⟩
  | step : ∀ (s t : LEState), LEReachable s → LEStep s t → LEReachable t

/-- Concrete environment: acquisition never completes before the deadline. -/
def envTimeoutC2 : Env :=
  { releaseName := "my-release", k8sOk := true
    statusQuery := GetReleaseResult.found Status.deployed
    statusQueryAtDecision := GetReleaseResult.found Status.deployed
    acquiredInTime := false, rollbackBeatsDeadline := true, rollbackErr := none
    execBeatsDeadline := true, execErr := none }

/-- Concrete environment: release in failed state, rollback and command
both succeed in time. -/
def envDegradedC3 : Env :=
  { releaseName := "my-release", k8sOk := true
    statusQuery := GetReleaseResult.found Status.failed
    statusQueryAtDecision := GetReleaseResult.found Status.failed
    acquiredInTime := true, rollbackBeatsDeadline := true, rollbackErr := none
    execBeatsDeadline := true, execErr := none }

/-- Concrete environment: release in failed state, rollback fails. -/
def envRollbackFailsC4 : Env :=
  { releaseName := "my-release", k8sOk := true
    statusQuery := GetReleaseResult.found Status.failed
    statusQueryAtDecision := GetReleaseResult.found Status.failed
    acquiredInTime := true, rollbackBeatsDeadline := true
    rollbackErr := some "no revision to rollback to"
    execBeatsDeadline := true, execErr := none }

/-- Concrete environment: acquisition never completes before the deadline. -/
def envTimeoutC5 : Env :=
  { releaseName := "my-release", k8sOk := true
    statusQuery := GetReleaseResult.found Status.deployed
    statusQueryAtDecision := GetReleaseResult.found Status.deployed
    acquiredInTime := false, rollbackBeatsDeadline := true, rollbackErr := none
    execBeatsDeadline := true, execErr := none }

/-- Concrete environment: healthy release, the deadline fires while the
guarded helm command is still executing. -/
def envDeadlineExecC6 : Env :=
  { releaseName := "my-release", k8sOk := true
    statusQuery := GetReleaseResult.found Status.deployed
    statusQueryAtDecision := GetReleaseResult.found Status.deployed
    acquiredInTime := true, rollbackBeatsDeadline := true, rollbackErr := none
    execBeatsDeadline := false, execErr := none }

/-- Concrete environment: the status backend answers Deployed at the
pre-lock probe but would answer Failed at the post-acquisition decision
point. -/
def envStaleC8 : Env :=
  { releaseName := "my-release", k8sOk := true
    statusQuery := GetReleaseResult.found Status.deployed
    statusQueryAtDecision := GetReleaseResult.found Status.failed
    acquiredInTime := true, rollbackBeatsDeadline := true, rollbackErr := none
    execBeatsDeadline := true, execErr := none }

/-- Concrete environment: the status backend changes between the probe and
the decision point, everything else succeeds. -/
def envFreshC8 : Env :=
  { releaseName := "my-release", k8sOk := true
    statusQuery := GetReleaseResult.found Status.failed
    statusQueryAtDecision := GetReleaseResult.found Status.deployed
    acquiredInTime := true, rollbackBeatsDeadline := true, rollbackErr := none
    execBeatsDeadline := true, execErr := none }

/-- In every reachable state, an executing contender is the lease holder. -/
theorem reachable_exec_holder (s : LEState) (h : LEReachable s) :
    ∀ i, s.phase i = Phase.executing → s.holder = some i := by
  induction h with
  | init f hf =>
      intro i hi
      have hi2 : f i = Phase.executing := hi
      rw [hf i] at hi2
      exact absurd hi2 (by simp)
  | step u t hu hst ih =>
      cases hst with
      | grant i hnone hw =>
          intro j hj
          by_cases hji : j = i
          · subst hji; rfl
          · have hj2 : u.phase j = Phase.executing := by
              simpa [setPhase, hji] using hj
            exact absurd (ih j hj2) (by simp [hnone])
      | finish i hold hx =>
          intro j hj
          by_cases hji : j = i
          · subst hji
            exact absurd hj (by simp [setPhase])
          · have hj2 : u.phase j = Phase.executing := by
              simpa [setPhase, hji] using hj
            have h3 := ih j hj2
            rw [hold] at h3
            exact absurd (Option.some.inj h3) (fun e => hji e.symm)

/-- C1: at most one contending invocation is in the Executing state (inside
OnStartedLeading, running the guarded helm command) at any instant, for any
number of contenders on the same lock name; arbitration is delegated to
the leader-election backend, modelled by the single-holder lease field. -/
theorem executing_mutual_exclusion (s : LEState) (h : LEReachable s) (i j : Nat)
    (hi : s.phase i = Phase.executing) (hj : s.phase j = Phase.executing) : i = j := by
  have h1 := reachable_exec_holder s h i hi
  have h2 := reachable_exec_holder s h j hj
  rw [h1] at h2
  exact Option.some.inj h2

/-- Witness for C1: a concrete reachable two-contender state in which
contender 0 holds the lease and is executing. -/
theorem executing_mutual_exclusion_witness : (0 : Nat) = 0 :=
  executing_mutual_exclusion
    ⟨setPhase (fun _ => Phase.waiting) 0 Phase.executing, some 0⟩
    (LEReachable.step ⟨fun _ => Phase.waiting, none⟩
      ⟨setPhase (fun _ => Phase.waiting) 0 Phase.executing, some 0⟩
      (LEReachable.init (fun _ => Phase.waiting) (fun _ => rfl))
      (LEStep.grant ⟨fun _ => Phase.waiting, none⟩ 0 rfl rfl))
    0 0 rfl rfl

/-- Strings with equal character data are equal. -/
theorem stringDataInj (a b : String) (h : a.data = b.data) : a = b := by
  cases a; cases b; exact congrArg String.mk (by simpa using h)

/-- C9: the lock name is the fixed prefix "helm-lock-" concatenated with
the resource name, so two resource names derive the same lock name exactly
when they are equal: identical names always collide, distinct names never. -/
theorem lockName_eq_iff (r1 r2 : String) : lockName r1 = lockName r2 ↔ r1 = r2 := by
  constructor
  · intro h
    have hd : ("helm-lock-" ++ r1).data = ("helm-lock-" ++ r2).data :=
      congrArg String.data h
    have hd2 : "helm-lock-".data ++ r1.data = "helm-lock-".data ++ r2.data := by
      simpa [String.data_append] using hd
    exact stringDataInj r1 r2 (List.append_cancel_left hd2)
  · intro h
    rw [h]

/-- Helper: once the decision point is reached, the lease is released
exactly once iff acquisition completed before the deadline. -/
theorem acquire_release_count (env : Env) (st : Status) :
    (acquireLockAndExecute env st).trace.count Ev.release
      = (if env.acquiredInTime then 1 else 0) := by
  rcases env with ⟨rn, k8s, sq, sqd, acq, rbd, rbe, ebd, ee⟩
  cases acq <;> cases rbd <;> cases ebd <;>
    rcases rbe with _ | m1 <;> rcases ee with _ | m2 <;>
    cases hsr : shouldRollback st <;>
    simp [acquireLockAndExecute, execPhase, hsr]

/-- C2 (amended): the backend release call happens exactly once on every
path on which the lock was acquired, and zero times on the paths where it
never was (setup failure, probe failure, or timeout before acquisition);
in particular it never happens more than once. -/
theorem release_count_characterization (env : Env) :
    (runLockCommand env).trace.count Ev.release
      = (if lockAcquiredPath env then 1 else 0)
    ∧ (runLockCommand env).trace.count Ev.release ≤ 1 := by
  have hmain : (runLockCommand env).trace.count Ev.release
      = (if lockAcquiredPath env then 1 else 0) := by
    by_cases h1 : env.releaseName = ""
    · simp [runLockCommand, lockAcquiredPath, h1]
    · cases hk : env.k8sOk
      · simp [runLockCommand, lockAcquiredPath, h1, hk]
      · rcases hq : getReleaseStatus env.statusQuery with ⟨st, e⟩
        rcases e with _ | m
        · have hcount := acquire_release_count env st
          simp [runLockCommand, lockAcquiredPath, h1, hk, hq, hcount]
        · simp [runLockCommand, lockAcquiredPath, h1, hk, hq]
  refine ⟨hmain, ?_⟩
  rw [hmain]
  split <;> simp

/-- C2 (counterexample to the claim as stated): on the LockTimedOut path
where acquisition never completed, the backend observes zero release
calls, not one. -/
theorem release_count_zero_on_timeout :
    (runLockCommand envTimeoutC2).outcome = Outcome.lockTimedOut
    ∧ (runLockCommand envTimeoutC2).trace.count Ev.release = 0 := by
  constructor <;> rfl

/-- Helper: the Go rollback gate fires exactly on the statuses other than
Deployed and Unknown. -/
theorem shouldRollback_iff (s : Status) :
    shouldRollback s = true ↔ (s ≠ Status.deployed ∧ s ≠ Status.unknown) := by
  simp [shouldRollback]

/-- C3: once the lock is won, the rollback is invoked exactly once iff the
recorded status is degraded (neither Deployed/Healthy nor Unknown — the
value the probe also records for an absent release); it is invoked only
after the grant and never at or after the spawn of the guarded command. -/
theorem rollback_iff_degraded (env : Env)
    (h1 : env.releaseName ≠ "") (h2 : env.k8sOk = true)
    (h3 : (getReleaseStatus env.statusQuery).2 = none)
    (h4 : env.acquiredInTime = true) :
    (runLockCommand env).trace.count Ev.rollback
      = (if (getReleaseStatus env.statusQuery).1 ≠ Status.deployed
            ∧ (getReleaseStatus env.statusQuery).1 ≠ Status.unknown then 1 else 0)
    ∧ rollbackOnlyAfterAcquire (runLockCommand env).trace = true
    ∧ noRollbackFromExec (runLockCommand env).trace = true := by
  rcases hq : getReleaseStatus env.statusQuery with ⟨st, e⟩
  have he : e = none := by rw [hq] at h3; exact h3
  subst he
  have hiff := shouldRollback_iff st
  rw [← if_congr hiff (Eq.refl 1) (Eq.refl 0)]
  cases hsr : shouldRollback st <;> rw [hsr] at hiff
  · have hnc := hiff
    rcases hx : env.execBeatsDeadline <;> rcases he2 : env.execErr with _ | m2 <;>
      simp [runLockCommand, acquireLockAndExecute, execPhase, h1, h2, hq, h4, hsr,
        hx, he2, rollbackOnlyAfterAcquire, noRollbackFromExec]
  · rcases hb : env.rollbackBeatsDeadline <;>
      rcases hr : env.rollbackErr with _ | m1 <;>
      rcases hx : env.execBeatsDeadline <;> rcases he2 : env.execErr with _ | m2 <;>
      simp [runLockCommand, acquireLockAndExecute, execPhase, h1, h2, hq, h4, hsr,
        hb, hr, hx, he2, rollbackOnlyAfterAcquire, noRollbackFromExec]

/-- Witness for C3: with a Failed release and a successful run, the
rollback is invoked exactly once. -/
theorem rollback_iff_degraded_witness :
    (runLockCommand envDegradedC3).trace.count Ev.rollback = 1 := by
  have h := rollback_iff_degraded envDegradedC3 (by decide) rfl rfl rfl
  rw [h.1]
  decide

/-- C4: when the rollback fails (and its failure signal wins the race with
the deadline), the guarded command is never spawned, the outcome is the
wrapped rollback error, and the lease is still released exactly once. -/
theorem recovery_failure_aborts (env : Env) (m : String)
    (h1 : env.releaseName ≠ "") (h2 : env.k8sOk = true)
    (h3 : (getReleaseStatus env.statusQuery).2 = none)
    (h4 : env.acquiredInTime = true)
    (h5 : shouldRollback (getReleaseStatus env.statusQuery).1 = true)
    (h6 : env.rollbackBeatsDeadline = true)
    (h7 : env.rollbackErr = some m) :
    (runLockCommand env).outcome = Outcome.recoveryFailed ("rollback failed: " ++ m)
    ∧ (runLockCommand env).trace.count Ev.exec = 0
    ∧ (runLockCommand env).trace.count Ev.release = 1 := by
  rcases hq : getReleaseStatus env.statusQuery with ⟨st, e⟩
  have he : e = none := by rw [hq] at h3; exact h3
  subst he
  rw [hq] at h5
  simp only [] at h5
  simp [runLockCommand, acquireLockAndExecute, h1, h2, hq, h4, h5, h6, h7]

/-- Witness for C4: failed release, rollback fails, command never runs. -/
theorem recovery_failure_aborts_witness :
    (runLockCommand envRollbackFailsC4).outcome
      = Outcome.recoveryFailed ("rollback failed: " ++ "no revision to rollback to")
    ∧ (runLockCommand envRollbackFailsC4).trace.count Ev.exec = 0
    ∧ (runLockCommand envRollbackFailsC4).trace.count Ev.release = 1 :=
  recovery_failure_aborts envRollbackFailsC4 "no revision to rollback to"
    (by decide) rfl rfl rfl rfl rfl rfl

/-- C5: when leader election does not complete before the lock-timeout
deadline, the deadline branch of the select wins, the outcome is the
timeout error, and the trace shows no grant, no rollback, no spawned
command and no further attempt. -/
theorem timeout_no_spawn (env : Env)
    (h1 : env.releaseName ≠ "") (h2 : env.k8sOk = true)
    (h3 : (getReleaseStatus env.statusQuery).2 = none)
    (h4 : env.acquiredInTime = false) :
    (runLockCommand env).outcome = Outcome.lockTimedOut
    ∧ (runLockCommand env).trace = [Ev.probe] := by
  rcases hq : getReleaseStatus env.statusQuery with ⟨st, e⟩
  have he : e = none := by rw [hq] at h3; exact h3
  subst he
  constructor <;> simp [runLockCommand, acquireLockAndExecute, h1, h2, hq, h4]

/-- Witness for C5: acquisition never completes, outcome LockTimedOut. -/
theorem timeout_no_spawn_witness :
    (runLockCommand envTimeoutC5).outcome = Outcome.lockTimedOut
    ∧ (runLockCommand envTimeoutC5).trace = [Ev.probe] :=
  timeout_no_spawn envTimeoutC5 (by decide) rfl rfl rfl

/-- C6: when the overall deadline fires while the guarded command is
executing, the spawned process is killed (exec.CommandContext), the
outcome is the timeout error rather than a silently dropped result, and
the lease is still released exactly once. -/
theorem deadline_during_exec (env : Env)
    (h1 : env.releaseName ≠ "") (h2 : env.k8sOk = true)
    (h3 : (getReleaseStatus env.statusQuery).2 = none)
    (h4 : env.acquiredInTime = true)
    (h5 : shouldRollback (getReleaseStatus env.statusQuery).1 = false
          ∨ (env.rollbackBeatsDeadline = true ∧ env.rollbackErr = none))
    (h6 : env.execBeatsDeadline = false) :
    (runLockCommand env).outcome = Outcome.lockTimedOut
    ∧ (runLockCommand env).execKilled = true
    ∧ (runLockCommand env).trace.count Ev.exec = 1
    ∧ (runLockCommand env).trace.count Ev.release = 1 := by
  rcases hq : getReleaseStatus env.statusQuery with ⟨st, e⟩
  have he : e = none := by rw [hq] at h3; exact h3
  subst he
  rcases h5 with h5 | ⟨h5a, h5b⟩
  · rw [hq] at h5
    simp only [] at h5
    simp [runLockCommand, acquireLockAndExecute, execPhase, h1, h2, hq, h4, h5, h6]
  · cases hsr : shouldRollback st <;>
      simp [runLockCommand, acquireLockAndExecute, execPhase, h1, h2, hq, h4, hsr,
        h5a, h5b, h6]

/-- Witness for C6: deployed release, deadline fires mid-execution. -/
theorem deadline_during_exec_witness :
    (runLockCommand envDeadlineExecC6).outcome = Outcome.lockTimedOut
    ∧ (runLockCommand envDeadlineExecC6).execKilled = true
    ∧ (runLockCommand envDeadlineExecC6).trace.count Ev.exec = 1
    ∧ (runLockCommand envDeadlineExecC6).trace.count Ev.release = 1 :=
  deadline_during_exec envDeadlineExecC6 (by decide) rfl rfl rfl (Or.inl rfl) rfl

/-- C7 (counterexample to the claim as stated): on a "not found" query
error the probe returns StatusUnknown — the very same value as for a
genuinely unknown status, not a distinct Absent value (the status
enumeration carried by the code has none). -/
theorem notFound_status_is_unknown :
    getReleaseStatus (GetReleaseResult.err "release: not found")
      = (Status.unknown, none)
    ∧ (getReleaseStatus (GetReleaseResult.err "release: not found")).1
      = (getReleaseStatus (GetReleaseResult.found Status.unknown)).1 :=
  ⟨rfl, rfl⟩

/-- C7 (amended): any query error whose message contains "not found" is
mapped to (StatusUnknown, no error), so an absent release does not fail
the run — but the value is Unknown, not a distinct Absent. -/
theorem notFound_returns_unknown_no_error (m : String)
    (h : strContains m "not found" = true) :
    getReleaseStatus (GetReleaseResult.err m) = (Status.unknown, none) := by
  simp [getReleaseStatus, h]

/-- Witness for the amended C7 at a concrete helm-style message. -/
theorem notFound_returns_unknown_no_error_witness :
    getReleaseStatus (GetReleaseResult.err "release: my-release: not found")
      = (Status.unknown, none) :=
  notFound_returns_unknown_no_error "release: my-release: not found" (by decide)

/-- C8 (counterexample to the claim as stated): the backend reports
Deployed at the pre-lock probe and Failed at the moment the lock is won;
the recovery decision consumes the stale Deployed value and skips the
rollback, so the status is cached across the wait, not read fresh. -/
theorem stale_status_drives_recovery_decision :
    runLockCommand envStaleC8
      = { outcome := Outcome.succeeded
          trace := [Ev.probe, Ev.acquire, Ev.exec, Ev.release]
          statusConsumed := some Status.deployed
          execKilled := false }
    ∧ getReleaseStatus envStaleC8.statusQueryAtDecision = (Status.failed, none) :=
  ⟨rfl, rfl⟩

/-- C8 (amended): the status consumed by the recovery decision is exactly
the single pre-acquisition probe result, whatever the backend would
answer at decision time; the probe runs exactly once per invocation. -/
theorem status_consumed_is_prelock_probe (env : Env)
    (h1 : env.releaseName ≠ "") (h2 : env.k8sOk = true)
    (h3 : (getReleaseStatus env.statusQuery).2 = none)
    (h4 : env.acquiredInTime = true) :
    (runLockCommand env).statusConsumed = some (getReleaseStatus env.statusQuery).1
    ∧ (runLockCommand env).trace.count Ev.probe = 1 := by
  rcases hq : getReleaseStatus env.statusQuery with ⟨st, e⟩
  have he : e = none := by rw [hq] at h3; exact h3
  subst he
  cases hsr : shouldRollback st <;>
    rcases hb : env.rollbackBeatsDeadline <;>
    rcases hr : env.rollbackErr with _ | m1 <;>
    rcases hx : env.execBeatsDeadline <;> rcases he2 : env.execErr with _ | m2 <;>
    simp [runLockCommand, acquireLockAndExecute, execPhase, h1, h2, hq, h4, hsr,
      hb, hr, hx, he2]

/-- Witness for the amended C8: the probe said Failed, the decision-time
value would be Deployed, and the consumed value is the probed Failed. -/
theorem status_consumed_is_prelock_probe_witness :
    (runLockCommand envFreshC8).statusConsumed
      = some (getReleaseStatus envFreshC8.statusQuery).1
    ∧ (runLockCommand envFreshC8).trace.count Ev.probe = 1 :=
  status_consumed_is_prelock_probe envFreshC8 (by decide) rfl rfl rfl

/-- Helper: in-bounds getElem? agrees with getD for any default. -/
theorem getElem?_eq_some_getD (l : List String) (i : Nat) (d : String)
    (h : i < l.length) : l[i]? = some (l.getD i d) := by
  induction l generalizing i with
  | nil => simp at h
  | cons a t ih =>
      cases i with
      | zero => simp [List.getD]
      | succ n =>
          have h2 : n < t.length := by simpa using h
          simpa [List.getD] using ih n h2

/-- C10: the release name is selected from the positional arguments that
follow the (possibly shifted) command word: the last one when at most two
follow, the second-to-last one when more than two follow; in particular
the documented form upgrade RELEASE CHART selects the chart argument. -/
theorem releaseName_selection (l : List String) (h : 0 < l.length) :
    (l.length ≤ 2 → some (selectReleaseName l) = l.getLast?)
    ∧ (2 < l.length → some (selectReleaseName l) = l[l.length - 2]?)
    ∧ (parseArgs ["upgrade", "my-release", "./my-chart"]).releaseName = "./my-chart" := by
  refine ⟨?_, ?_, rfl⟩
  · rcases l with _ | ⟨a, _ | ⟨b, _ | ⟨c, t⟩⟩⟩
    · simp at h
    · intro _; rfl
    · intro _; rfl
    · intro hle
      exact absurd hle (by simp)
  · rcases l with _ | ⟨a, _ | ⟨b, _ | ⟨c, t⟩⟩⟩
    · simp at h
    · intro hgt; exact absurd hgt (by simp)
    · intro hgt; exact absurd hgt (by simp)
    · intro _
      have hlen : (a :: b :: c :: t).length = t.length + 3 := by simp
      have hsel : selectReleaseName (a :: b :: c :: t)
          = (a :: b :: c :: t).getD (t.length + 1) "" := by
        simp only [selectReleaseName, hlen]
        rw [if_pos (by omega), if_pos (by omega)]
        have hidx : t.length + 3 - 1 - 1 = t.length + 1 := by omega
        rw [hidx]
      have hidx2 : (a :: b :: c :: t).length - 2 = t.length + 1 := by
        rw [hlen]
        omega
      rw [hsel, hidx2]
      exact (getElem?_eq_some_getD (a :: b :: c :: t) (t.length + 1) "" (by simp)).symm

/-- Witness for C10 at the two-argument documented form. -/
theorem releaseName_selection_witness :
    some (selectReleaseName ["my-release", "./my-chart"])
      = ["my-release", "./my-chart"].getLast? :=
  (releaseName_selection ["my-release", "./my-chart"] (by decide)).1 (by decide)

end HelmLock

